import Mathlib

/-!
Shallow embedding of the YaPyCon core (yasara_kernel.py and yapycon.py):
the command/result channel (`yasara_communicator`), the command dispatcher
(`runretval`), the message framing, the session-context relay service and
server, and the kernel module initialisation.  Byte strings are `List ℕ`
(each entry a byte value), the deserialized Python values delivered by
`pickle.loads` are the inductive `PyObj`, and Python exceptions are the
`Except` error channel.
-/

namespace Yapycon

/-- Python values, as far as the relay and the wire protocol need them:
integers, strings, tuples and None, the shapes `pickle.loads` can deliver
for results and for `(code, text)` error payloads. -/
inductive PyObj where
  | pynone : PyObj
  | pyint (n : ℤ) : PyObj
  | pystr (s : String) : PyObj
  | pytuple (items : List PyObj) : PyObj
deriving Repr, BEq

/-- Python exceptions raised by the communication layer: `RuntimeError`
with its message, and `TypeError` (what `"%d: %s" % ...` formatting raises
when an ERROR payload is not a (int, str) pair). -/
inductive PyError where
  | runtimeError (msg : String) : PyError
  | typeError : PyError
deriving Repr, DecidableEq

/-- Message id for a result of a YASARA command (`self.RESULT = 0`). -/
def RESULT : ℤ := 0

/-- Message id for an error raised by YASARA (`self.ERROR = 1`). -/
def ERROR : ℤ := 1

/-- The connection-broken message (`self.broken`). -/
def broken : String := "Socket connection broken"

/-- Starting port of the bind loop: `socket.IPPORT_USERRESERVED`. -/
def IPPORT_USERRESERVED : ℕ := 5000

/-- The bind-retry loop of `yasara_communicator.__init__`: try to bind
`port`; on failure (port already bound) increment and retry.  The set of
already-bound ports is the finite set `bound`. -/
def openPort (bound : Finset ℕ) (port : ℕ) : ℕ :=
  if h : port ∈ bound then openPort bound (port + 1) else port
termination_by bound.sup id + 1 - port
decreasing_by
  have hle : port ≤ bound.sup id := Finset.le_sup (f := id) h
  omega

/-- The channel endpoint held by a `yasara_communicator`: the bound port,
the listen backlog, and the accepted peer socket (None until `accept`). -/
structure yasara_communicator where
  port : ℕ
  backlog : ℕ
  sock : Option ℕ
deriving Repr, DecidableEq

/-- Constructor `yasara_communicator.__init__`: bind the first free port
starting from `IPPORT_USERRESERVED`, `listen(1)`, no accepted socket yet. -/
def yasara_communicator.init (bound : Finset ℕ) : yasara_communicator :=
  { port := openPort bound IPPORT_USERRESERVED, backlog := 1, sock := none }

/-- Method `yasara_communicator.accept`: raise if a connection was already
accepted, otherwise record the connecting peer. -/
def yasara_communicator.accept (c : yasara_communicator) (peer : ℕ) :
    Except String yasara_communicator :=
  match c.sock with
  | some _ => .error "Connection has already been accepted"
  | none => .ok { c with sock := some peer }

/-- Loop body of `yasara_communicator.receive`: the transport is a list of
chunks (what successive `recv` calls yield; an exhausted list or an empty
chunk is a closed connection).  Each `recv(size - len(data))` returns at
most the requested number of bytes; a remainder of the current chunk stays
buffered for the next call.  A zero-length chunk raises the broken-socket
error. -/
def receiveAux (chunks : List (List ℕ)) (acc : List ℕ) (size : ℕ) :
    Except String (List ℕ × List (List ℕ)) :=
  if h : acc.length < size then
    match chunks with
    | [] => .error broken
    | c :: rest =>
      let chunk := c.take (size - acc.length)
      if hc : chunk.length = 0 then .error broken
      else
        let rem := c.drop (size - acc.length)
        receiveAux (if rem.isEmpty then rest else rem :: rest) (acc ++ chunk) size
  else .ok (acc, chunks)
termination_by size - acc.length
decreasing_by
  simp only [List.length_append]
  have hc' : 0 < (List.take (size - acc.length) c).length := by
    simpa [chunk] using Nat.pos_of_ne_zero hc
  omega

/-- Method `yasara_communicator.receive(size)`: loop until exactly `size`
bytes have been read, returning the data and the unconsumed transport. -/
def yasara_communicator.receive (chunks : List (List ℕ)) (size : ℕ) :
    Except String (List ℕ × List (List ℕ)) :=
  receiveAux chunks [] size

/-- Decoding one native-endian (little-endian on this platform) signed
32-bit integer from four bytes, as `struct.unpack` does for format `i`. -/
def int32FromBytes (l : List ℕ) : ℤ :=
  match l with
  | [b0, b1, b2, b3] =>
    let u : ℕ := b0 + 256 * b1 + 65536 * b2 + 16777216 * b3
    if u < 2147483648 then (u : ℤ) else (u : ℤ) - 4294967296
  | _ => 0

/-- Unpacking `struct.unpack('ii', data)` applied to the 8 header bytes:
two native-endian signed 32-bit integers, message type then payload size. -/
def unpack_ii (l : List ℕ) : ℤ × ℤ :=
  (int32FromBytes (l.take 4), int32FromBytes (l.drop 4))

/-- Encoding one signed 32-bit integer to four native-endian bytes, the
inverse direction of `int32FromBytes`. -/
def int32ToBytes (n : ℤ) : List ℕ :=
  let u : ℕ := (n % 4294967296).toNat
  [u % 256, u / 256 % 256, u / 65536 % 256, u / 16777216 % 256]

/-- Modelled from the spec: the host-side framing `encode(kind, payload)`
(section 4.1 of the spec) is not part of this repository (YASARA produces
the wire bytes); per the spec it emits an 8-byte header of two
native-endian 32-bit signed integers, the message kind then the payload
length, immediately followed by the payload bytes. -/
def encodeMessage (kind : ℤ) (payload : List ℕ) : List ℕ :=
  int32ToBytes kind ++ int32ToBytes (payload.length : ℤ) ++ payload

/-- Header decoding as `receivemessage` performs it: the first 8 bytes of
a framed message through `struct.unpack('ii', ...)`. -/
def decode_header (msg : List ℕ) : ℤ × ℤ :=
  unpack_ii (msg.take 8)

/-- Method `yasara_communicator.receivemessage(expectedtype)`: read the
8-byte header, read the payload, unpickle it; an ERROR message raises
`RuntimeError` formatted from the `(code, text)` payload; a type mismatch
against `expectedtype` raises `RuntimeError`; otherwise return the payload
(or the `(type, payload)` pair when no expected type was given).  The
transport is `chunks`; `unpickle` stands for `pickle.loads`. -/
def yasara_communicator.receivemessage (chunks : List (List ℕ))
    (unpickle : List ℕ → PyObj) (expectedtype : Option ℤ) :
    Except PyError ((ℤ × PyObj) ⊕ PyObj) :=
  match yasara_communicator.receive chunks 8 with
  | .error e => .error (.runtimeError e)
  | .ok (hdr, rest) =>
    let messagetype := (unpack_ii hdr).1
    let datasize := (unpack_ii hdr).2
    match yasara_communicator.receive rest datasize.toNat with
    | .error e => .error (.runtimeError e)
    | .ok (data, _) =>
      let messagedata := unpickle data
      if messagetype = ERROR then
        match messagedata with
        | .pytuple (x :: y :: _) =>
          match x, y with
          | .pyint code, .pystr txt =>
            .error (.runtimeError
              ("YASARA raised error " ++ toString code ++ ": " ++ txt))
          | _, _ => .error .typeError
        | _ => .error .typeError
      else
        match expectedtype with
        | some e =>
          if messagetype ≠ e then
            .error (.runtimeError "Unexpected message type received")
          else .ok (.inr messagedata)
        | none => .ok (.inl (messagetype, messagedata))

/-- Outcome of one `runretval` call: the returned value (`None` for a
fire-and-forget command), the process-wide `com` global after the call,
and the lines written to the host input stream via `stdout_relay`. -/
structure RunOutcome where
  retval : Option ((ℤ × PyObj) ⊕ PyObj)
  com : Option yasara_communicator
  writes : List String
deriving Repr

/-- Dispatcher `runretval(command, retvalused)`.  `com` is the process
global channel endpoint (None until the first result-bearing command);
`bound` the ports already bound when a fresh endpoint must be opened;
`peer` the host socket that connects back; `chunks` the bytes the host
sends on the channel; `unpickle` stands for `pickle.loads`. -/
def runretval (com : Option yasara_communicator) (bound : Finset ℕ)
    (peer : ℕ) (chunks : List (List ℕ)) (unpickle : List ℕ → PyObj)
    (command : String) (retvalused : Bool) : Except PyError RunOutcome :=
  if retvalused = false then
    .ok { retval := none, com := com, writes := ["Exec: " ++ command ++ "\n"] }
  else
    match com with
    | none =>
      let c := yasara_communicator.init bound
      let line := "ExecRV" ++ toString c.port ++ ": " ++ command ++ "\n"
      match c.accept peer with
      | .error e => .error (.runtimeError e)
      | .ok c2 =>
        match yasara_communicator.receivemessage chunks unpickle (some RESULT) with
        | .error e => .error e
        | .ok v => .ok { retval := some v, com := some c2, writes := [line] }
    | some c =>
      match yasara_communicator.receivemessage chunks unpickle (some RESULT) with
      | .error e => .error e
      | .ok v =>
        .ok { retval := some v, com := some c,
              writes := ["ExecRV: " ++ command ++ "\n"] }

/-- Reference definition of the Command Dispatcher transcribed from the
specification (section 4.3), to be compared with `runretval`: a command
with no result wanted is written as an `Exec:` line and `None` comes back
at once with the endpoint untouched; a result-bearing command opens the
endpoint when none exists (writing `ExecRV<port>:` and accepting the one
host connection) or reuses the existing one (writing `ExecRV:`), and in
both cases blocks for one framed result. -/
def dispatch_spec (endpoint : Option yasara_communicator) (bound : Finset ℕ)
    (peer : ℕ) (chunks : List (List ℕ)) (unpickle : List ℕ → PyObj)
    (command_text : String) (expects_result : Bool) : Except PyError RunOutcome :=
  match expects_result, endpoint with
  | false, _ =>
    .ok { retval := none, com := endpoint,
          writes := ["Exec: " ++ command_text ++ "\n"] }
  | true, none =>
    let fresh := yasara_communicator.init bound
    match fresh.accept peer with
    | .error e => .error (.runtimeError e)
    | .ok connected =>
      match yasara_communicator.receivemessage chunks unpickle (some RESULT) with
      | .error e => .error e
      | .ok v =>
        .ok { retval := some v, com := some connected,
              writes := ["ExecRV" ++ toString fresh.port ++ ": "
                           ++ command_text ++ "\n"] }
  | true, some existing =>
    match yasara_communicator.receivemessage chunks unpickle (some RESULT) with
    | .error e => .error e
    | .ok v =>
      .ok { retval := some v, com := some existing,
            writes := ["ExecRV: " ++ command_text ++ "\n"] }

/-- An output stream (`sys.stdout` of the plugin process): the writes
already flushed to it, and the writes still sitting in its buffer. -/
structure OutStream where
  flushed : List String
  buffer : List String
deriving Repr, DecidableEq

/-- Writing to the stream appends to its buffer. -/
def OutStream.write (o : OutStream) (t : String) : OutStream :=
  { o with buffer := o.buffer ++ [t] }

/-- Flushing the stream empties the buffer onto the flushed output. -/
def OutStream.flush (o : OutStream) : OutStream :=
  { flushed := o.flushed ++ o.buffer, buffer := [] }

/-- The `yasara` module globals that `YasaraContextRelayService.__init__`
copies at construction time (the host's active session values). -/
structure YasaraCtx where
  plugin : PyObj
  request : PyObj
  opsys : PyObj
  version : PyObj
  serialnumber : PyObj
  stage : PyObj
  owner : PyObj
  permissions : PyObj
  workdir : String
  selection : PyObj
  com : PyObj
deriving Repr

/-- The rpyc service object of `yapycon.py`: the captured session fields
(one per `yasara` global), the bound output stream, and the connection
info passed to the constructor. -/
structure YasaraContextRelayService where
  output_stream : OutStream
  plugin : PyObj
  request : PyObj
  opsys : PyObj
  version : PyObj
  serialnumber : PyObj
  stage : PyObj
  owner : PyObj
  permissions : PyObj
  workdir : String
  selection : PyObj
  com : PyObj
  connection_info : PyObj
deriving Repr

/-- Constructor `YasaraContextRelayService.__init__`: capture
`sys.stdout` and each `yasara.*` global into the service's fields. -/
def YasaraContextRelayService.init (ctx : YasaraCtx) (conn_info : PyObj)
    (stdout : OutStream) : YasaraContextRelayService :=
  { output_stream := stdout, plugin := ctx.plugin, request := ctx.request,
    opsys := ctx.opsys, version := ctx.version,
    serialnumber := ctx.serialnumber, stage := ctx.stage, owner := ctx.owner,
    permissions := ctx.permissions, workdir := ctx.workdir,
    selection := ctx.selection, com := ctx.com, connection_info := conn_info }

namespace YasaraContextRelayService

/-- Accessor `exposed_get_plugin`. -/
def exposed_get_plugin (s : YasaraContextRelayService) : PyObj := s.plugin

/-- Accessor `exposed_get_request_str`. -/
def exposed_get_request_str (s : YasaraContextRelayService) : PyObj := s.request

/-- Accessor `exposed_get_opsys`. -/
def exposed_get_opsys (s : YasaraContextRelayService) : PyObj := s.opsys

/-- Accessor `exposed_get_version`. -/
def exposed_get_version (s : YasaraContextRelayService) : PyObj := s.version

/-- Accessor `exposed_get_serialnumber`. -/
def exposed_get_serialnumber (s : YasaraContextRelayService) : PyObj := s.serialnumber

/-- Accessor `exposed_get_stage`. -/
def exposed_get_stage (s : YasaraContextRelayService) : PyObj := s.stage

/-- Accessor `exposed_get_owner`. -/
def exposed_get_owner (s : YasaraContextRelayService) : PyObj := s.owner

/-- Accessor `exposed_get_permissions`. -/
def exposed_get_permissions (s : YasaraContextRelayService) : PyObj := s.permissions

/-- Accessor `exposed_get_workdir`. -/
def exposed_get_workdir (s : YasaraContextRelayService) : String := s.workdir

/-- Accessor `exposed_get_selection`. -/
def exposed_get_selection (s : YasaraContextRelayService) : PyObj := s.selection

/-- Accessor `exposed_get_com`. -/
def exposed_get_com (s : YasaraContextRelayService) : PyObj := s.com

/-- Accessor `exposed_get_connection_info`. -/
def exposed_get_connection_info (s : YasaraContextRelayService) : PyObj :=
  s.connection_info

/-- Method `exposed_stdout_relay(payload)`: write the payload to the
bound output stream and flush it immediately. -/
def exposed_stdout_relay (s : YasaraContextRelayService) (payload : String) :
    YasaraContextRelayService :=
  { s with output_stream := (s.output_stream.write payload).flush }

end YasaraContextRelayService

/-- The rpyc `ThreadedServer` as `RpcServerThread.__init__` configures it:
the one service instance it serves, the hostname argument (not passed by
the source, hence `none`), the port, and the `allow_public_attrs` entry of
`protocol_config`. -/
structure ThreadedServer where
  service : YasaraContextRelayService
  hostname : Option String
  port : ℕ
  allow_public_attrs : Bool
deriving Repr

/-- Service an incoming connection sees.  The server is constructed with
an instance, not with the class (the source comments that all subsequent
processes share this particular set of information), so every connection
is served by that same instance. -/
def ThreadedServer.serviceFor (s : ThreadedServer) (connId : ℕ) :
    YasaraContextRelayService :=
  s.service

/-- The thread object of `yapycon.py` holding the rpyc server. -/
structure RpcServerThread where
  serv_object : ThreadedServer
deriving Repr

/-- Constructor `RpcServerThread.__init__`: build the `ThreadedServer`
around one freshly constructed `YasaraContextRelayService`, on port 18861,
with `allow_public_attrs` set. -/
def RpcServerThread.init (ctx : YasaraCtx) (conn_info : PyObj)
    (stdout : OutStream) : RpcServerThread :=
  { serv_object :=
      { service := YasaraContextRelayService.init ctx conn_info stdout,
        hostname := none, port := 18861, allow_public_attrs := true } }

/-- The relay endpoint `yasara_kernel.py` connects to at import time:
`rpyc.connect("localhost", 18861)`. -/
def yasara_kernel_relay_target : String × ℕ := ("localhost", 18861)

/-- The module globals `yasara_kernel.py` fills from the relay accessors
on a successful connection. -/
structure KernelGlobals where
  plugin : PyObj
  request : PyObj
  opsys : PyObj
  version : PyObj
  serialnumber : PyObj
  stage : PyObj
  owner : PyObj
  permissions : PyObj
  workdir : String
  selection : PyObj
  com : PyObj
deriving Repr

/-- State of the kernel process after module initialisation: the snapshot
globals (None when no relay was reachable) and the current working
directory. -/
structure KernelState where
  globals : Option KernelGlobals
  cwd : String
deriving Repr

/-- Module initialisation of `yasara_kernel.py`: connect to the relay;
when the connection succeeds, retrieve every session value through the
relay accessors and `os.chdir` to the retrieved working directory; when
the connection is refused (`conn = none`), leave everything untouched. -/
def kernel_module_init (conn : Option YasaraContextRelayService)
    (cwd0 : String) : KernelState :=
  match conn with
  | none => { globals := none, cwd := cwd0 }
  | some svc =>
    { globals := some
        { plugin := svc.exposed_get_plugin,
          request := svc.exposed_get_request_str,
          opsys := svc.exposed_get_opsys,
          version := svc.exposed_get_version,
          serialnumber := svc.exposed_get_serialnumber,
          stage := svc.exposed_get_stage,
          owner := svc.exposed_get_owner,
          permissions := svc.exposed_get_permissions,
          workdir := svc.exposed_get_workdir,
          selection := svc.exposed_get_selection,
          com := svc.exposed_get_com },
      cwd := svc.exposed_get_workdir }

/-- Function `yapycon_plugin_check_if_disabled` of `yapycon.py`, over the
three import-guard flags `HAS_QTCONSOLE`, `HAS_IPYTHON`, `HAS_RPYC`:
return 1 (disabled) when none of the prerequisite modules loaded,
0 (enabled) otherwise. -/
def yapycon_plugin_check_if_disabled (hasQtconsole hasIpython hasRpyc : Bool) : ℕ :=
  if !(hasIpython || hasRpyc || hasQtconsole) then 1 else 0

/-! Theorems settling the claims. -/

/-- C10: `yapycon_plugin_check_if_disabled` returns 0 (enabled) exactly
when at least one of the three optional dependencies imported
successfully, and 1 (disabled) exactly when all three imports failed. -/
theorem C10_check_if_disabled (hasQtconsole hasIpython hasRpyc : Bool) :
    (yapycon_plugin_check_if_disabled hasQtconsole hasIpython hasRpyc = 0
        ↔ (hasQtconsole || hasIpython || hasRpyc) = true)
    ∧ (yapycon_plugin_check_if_disabled hasQtconsole hasIpython hasRpyc = 1
        ↔ hasQtconsole = false ∧ hasIpython = false ∧ hasRpyc = false) := by
  cases hasQtconsole <;> cases hasIpython <;> cases hasRpyc <;>
    simp [yapycon_plugin_check_if_disabled]

/-- C8: `accept` on an endpoint with no accepted connection records the
one connecting peer; `accept` on an endpoint whose connection is already
accepted raises the already-connected error, so an endpoint holds at most
one accepted peer. -/
theorem C8_accept_at_most_once (c : yasara_communicator) (peer peer2 : ℕ) :
    (c.sock = none →
        c.accept peer = .ok { c with sock := some peer })
    ∧ (∀ s, c.sock = some s →
        c.accept peer = .error "Connection has already been accepted")
    ∧ (∀ c2, c.accept peer = .ok c2 →
        c2.accept peer2 = .error "Connection has already been accepted") := by
  refine ⟨fun h => ?_, fun s h => ?_, fun c2 h => ?_⟩
  · simp [yasara_communicator.accept, h]
  · simp [yasara_communicator.accept, h]
  · rcases hs : c.sock with _ | s
    · simp only [yasara_communicator.accept, hs] at h
      cases h
      simp [yasara_communicator.accept]
    · simp [yasara_communicator.accept, hs] at h

/-- Closed instance of `C8_accept_at_most_once` at a concrete endpoint. -/
theorem C8_accept_witness :
    yasara_communicator.accept ⟨5000, 1, none⟩ 7
        = .ok { port := 5000, backlog := 1, sock := some 7 }
    ∧ yasara_communicator.accept ⟨5000, 1, some 7⟩ 9
        = .error "Connection has already been accepted" :=
  ⟨(C8_accept_at_most_once ⟨5000, 1, none⟩ 7 9).1 rfl,
   (C8_accept_at_most_once ⟨5000, 1, some 7⟩ 9 9).2.1 7 rfl⟩

/-- C7: the Relay Server is built around exactly one relay-service
instance, served identically to every connection, on fixed port 18861
with `allow_public_attrs` set, and the kernel reaches it at host
`localhost` on that same port. -/
theorem C7_relay_server (ctx : YasaraCtx) (conn_info : PyObj)
    (stdout : OutStream) (connA connB : ℕ) :
    ((RpcServerThread.init ctx conn_info stdout).serv_object.port = 18861)
    ∧ ((RpcServerThread.init ctx conn_info stdout).serv_object.allow_public_attrs
        = true)
    ∧ ((RpcServerThread.init ctx conn_info stdout).serv_object.serviceFor connA
        = (RpcServerThread.init ctx conn_info stdout).serv_object.serviceFor connB)
    ∧ ((RpcServerThread.init ctx conn_info stdout).serv_object.serviceFor connA
        = YasaraContextRelayService.init ctx conn_info stdout)
    ∧ (yasara_kernel_relay_target
        = ("localhost", (RpcServerThread.init ctx conn_info stdout).serv_object.port)) :=
  ⟨rfl, rfl, rfl, rfl, rfl⟩

/-- C9: when the kernel module obtains the relay connection at import
time, its working directory becomes the snapshot's workdir and all
snapshot globals are filled from the relay accessors; when the connection
is refused, no snapshot is held and the working directory is unchanged. -/
theorem C9_kernel_chdir (svc : YasaraContextRelayService) (cwd0 : String) :
    ((kernel_module_init (some svc) cwd0).cwd = svc.exposed_get_workdir)
    ∧ ((kernel_module_init (some svc) cwd0).globals
        = some { plugin := svc.plugin, request := svc.request,
                 opsys := svc.opsys, version := svc.version,
                 serialnumber := svc.serialnumber, stage := svc.stage,
                 owner := svc.owner, permissions := svc.permissions,
                 workdir := svc.workdir, selection := svc.selection,
                 com := svc.com })
    ∧ ((kernel_module_init none cwd0).globals = none)
    ∧ ((kernel_module_init none cwd0).cwd = cwd0) :=
  ⟨rfl, rfl, rfl, rfl⟩

/-- Iterating `exposed_stdout_relay` never changes any snapshot field of
the service; only the output stream moves. -/
lemma foldl_stdout_relay_snapshot (s : YasaraContextRelayService)
    (texts : List String) :
    (List.foldl YasaraContextRelayService.exposed_stdout_relay s texts)
      = { s with output_stream :=
            (List.foldl YasaraContextRelayService.exposed_stdout_relay s
              texts).output_stream } := by
  induction texts generalizing s with
  | nil => rfl
  | cons t rest ih =>
    simp only [List.foldl_cons]
    rw [ih]
    rfl

/-- Stream contents after iterating `exposed_stdout_relay`: every call
appends its payload and flushes, so all prior buffered output and every
relayed text end up flushed, with an empty buffer. -/
lemma foldl_stdout_relay_stream (s : YasaraContextRelayService) (t : String)
    (texts : List String) :
    (List.foldl YasaraContextRelayService.exposed_stdout_relay s (t :: texts)).output_stream
      = { flushed := s.output_stream.flushed ++ s.output_stream.buffer ++ (t :: texts),
          buffer := [] } := by
  induction texts generalizing s t with
  | nil =>
    simp [YasaraContextRelayService.exposed_stdout_relay, OutStream.write,
      OutStream.flush]
  | cons u rest ih =>
    simp only [List.foldl_cons] at ih ⊢
    rw [ih]
    simp [YasaraContextRelayService.exposed_stdout_relay, OutStream.write,
      OutStream.flush]

/-- C6: every `get_*` accessor of a constructed relay service returns the
value captured at construction, unchanged after any number of
`stdout_relay` calls, and `stdout_relay` only appends its text to the
bound output stream and flushes it immediately. -/
theorem C6_relay_read_isolation (ctx : YasaraCtx) (conn_info : PyObj)
    (stdout : OutStream) (texts : List String) (t : String) :
    ((List.foldl YasaraContextRelayService.exposed_stdout_relay
        (YasaraContextRelayService.init ctx conn_info stdout) texts).exposed_get_plugin
        = ctx.plugin)
    ∧ ((List.foldl YasaraContextRelayService.exposed_stdout_relay
        (YasaraContextRelayService.init ctx conn_info stdout) texts).exposed_get_request_str
        = ctx.request)
    ∧ ((List.foldl YasaraContextRelayService.exposed_stdout_relay
        (YasaraContextRelayService.init ctx conn_info stdout) texts).exposed_get_opsys
        = ctx.opsys)
    ∧ ((List.foldl YasaraContextRelayService.exposed_stdout_relay
        (YasaraContextRelayService.init ctx conn_info stdout) texts).exposed_get_version
        = ctx.version)
    ∧ ((List.foldl YasaraContextRelayService.exposed_stdout_relay
        (YasaraContextRelayService.init ctx conn_info stdout) texts).exposed_get_serialnumber
        = ctx.serialnumber)
    ∧ ((List.foldl YasaraContextRelayService.exposed_stdout_relay
        (YasaraContextRelayService.init ctx conn_info stdout) texts).exposed_get_stage
        = ctx.stage)
    ∧ ((List.foldl YasaraContextRelayService.exposed_stdout_relay
        (YasaraContextRelayService.init ctx conn_info stdout) texts).exposed_get_owner
        = ctx.owner)
    ∧ ((List.foldl YasaraContextRelayService.exposed_stdout_relay
        (YasaraContextRelayService.init ctx conn_info stdout) texts).exposed_get_permissions
        = ctx.permissions)
    ∧ ((List.foldl YasaraContextRelayService.exposed_stdout_relay
        (YasaraContextRelayService.init ctx conn_info stdout) texts).exposed_get_workdir
        = ctx.workdir)
    ∧ ((List.foldl YasaraContextRelayService.exposed_stdout_relay
        (YasaraContextRelayService.init ctx conn_info stdout) texts).exposed_get_selection
        = ctx.selection)
    ∧ ((List.foldl YasaraContextRelayService.exposed_stdout_relay
        (YasaraContextRelayService.init ctx conn_info stdout) texts).exposed_get_com
        = ctx.com)
    ∧ ((List.foldl YasaraContextRelayService.exposed_stdout_relay
        (YasaraContextRelayService.init ctx conn_info stdout) texts).exposed_get_connection_info
        = conn_info)
    ∧ ((YasaraContextRelayService.exposed_stdout_relay
          (YasaraContextRelayService.init ctx conn_info stdout) t).output_stream
        = { flushed := stdout.flushed ++ stdout.buffer ++ [t], buffer := [] }) := by
  have hsnap := foldl_stdout_relay_snapshot
    (YasaraContextRelayService.init ctx conn_info stdout) texts
  refine ⟨?_, ?_, ?_, ?_, ?_, ?_, ?_, ?_, ?_, ?_, ?_, ?_, ?_⟩
  all_goals
    first
    | (rw [hsnap]; rfl)
    | (simpa using foldl_stdout_relay_stream
        (YasaraContextRelayService.init ctx conn_info stdout) t [])

/-- The bind-retry loop lands exactly on the first free port at or above
its starting port: the result is free, no smaller free port at or above
the start exists. -/
theorem openPort_spec (bound : Finset ℕ) (port : ℕ) :
    openPort bound port ∉ bound ∧ port ≤ openPort bound port ∧
      ∀ q, port ≤ q → q ∉ bound → openPort bound port ≤ q := by
  by_cases h : port ∈ bound
  · obtain ⟨ih1, ih2, ih3⟩ := openPort_spec bound (port + 1)
    rw [openPort, dif_pos h]
    refine ⟨ih1, by omega, fun q hq hqb => ?_⟩
    have hne : q ≠ port := fun he => hqb (he ▸ h)
    exact ih3 q (by omega) hqb
  · rw [openPort, dif_neg h]
    exact ⟨h, le_refl _, fun q hq _ => hq⟩
termination_by bound.sup id + 1 - port
decreasing_by
  have hle : port ≤ bound.sup id := Finset.le_sup (f := id) h
  omega

/-- C2: for every starting port and finite set of already-bound ports the
bind loop of `yasara_communicator.__init__` terminates on the first free
port at or above the starting port, skipping no free port, and the
constructed endpoint listens with backlog 1 and records that port (the
loop starts at `IPPORT_USERRESERVED`, and no connection is accepted
yet). -/
theorem C2_open_first_free_port (bound : Finset ℕ) (start : ℕ) :
    (openPort bound start ∉ bound
      ∧ start ≤ openPort bound start
      ∧ ∀ q, start ≤ q → q ∉ bound → openPort bound start ≤ q)
    ∧ ((yasara_communicator.init bound).port = openPort bound IPPORT_USERRESERVED
      ∧ (yasara_communicator.init bound).backlog = 1
      ∧ (yasara_communicator.init bound).sock = none) :=
  ⟨openPort_spec bound start, rfl, rfl, rfl⟩

/-- Closed instance of `C2_open_first_free_port`: with ports 5000 and
5001 already bound, the endpoint's port is free, at least the start, and
at most the first actually free port 5002. -/
theorem C2_open_first_free_port_witness :
    openPort {5000, 5001} 5000 ∉ ({5000, 5001} : Finset ℕ)
    ∧ 5000 ≤ openPort {5000, 5001} 5000
    ∧ openPort {5000, 5001} 5000 ≤ 5002
    ∧ (yasara_communicator.init {5000, 5001}).backlog = 1 :=
  ⟨(C2_open_first_free_port {5000, 5001} 5000).1.1,
   (C2_open_first_free_port {5000, 5001} 5000).1.2.1,
   (C2_open_first_free_port {5000, 5001} 5000).1.2.2 5002 (by decide) (by decide),
   (C2_open_first_free_port {5000, 5001} 5000).2.2.1⟩

/-- Decoding four little-endian bytes produced from a natural number
below 2^31 gives back exactly that number (as a nonnegative int32). -/
lemma int32_roundtrip (n : ℕ) (h : n < 2147483648) :
    int32FromBytes (int32ToBytes (n : ℤ)) = (n : ℤ) := by
  have hmod : ((n : ℤ) % 4294967296).toNat = n := by omega
  simp only [int32ToBytes, hmod, int32FromBytes]
  have hu : n % 256 + 256 * (n / 256 % 256) + 65536 * (n / 65536 % 256)
      + 16777216 * (n / 16777216 % 256) = n := by omega
  rw [hu, if_pos h]

/-- Decoding the header of an encoded message splits back into the two
encoded int32 fields, whatever the payload. -/
lemma decode_encode (kind : ℤ) (payload : List ℕ) :
    decode_header (encodeMessage kind payload)
      = (int32FromBytes (int32ToBytes kind),
         int32FromBytes (int32ToBytes (payload.length : ℤ))) := by
  simp [decode_header, encodeMessage, unpack_ii, int32ToBytes,
    List.take_succ_cons, List.drop_succ_cons]

/-- C5: for kind 0 or 1 and payloads of length up to 65536, decoding the
8-byte header produced by encoding yields exactly the pair of the kind
and the payload length — header decode is a left inverse of header encode
on this domain. -/
theorem C5_header_roundtrip (kind : ℤ) (payload : List ℕ)
    (hk : kind = 0 ∨ kind = 1) (hl : payload.length ≤ 65536) :
    decode_header (encodeMessage kind payload) = (kind, (payload.length : ℤ)) := by
  rw [decode_encode, int32_roundtrip payload.length (by omega)]
  rcases hk with hk | hk <;> subst hk
  · norm_num [int32ToBytes, int32FromBytes]
  · norm_num [int32ToBytes, int32FromBytes]

/-- Closed instance of `C5_header_roundtrip` on a two-byte ERROR-kind
payload. -/
theorem C5_header_roundtrip_witness :
    decode_header (encodeMessage 1 [7, 8]) = (1, 2) :=
  C5_header_roundtrip 1 [7, 8] (Or.inr rfl) (by decide)

/-- Invariant of the receive loop: starting with at most `size` bytes
accumulated, the loop either returns exactly `size` bytes or raises the
broken-socket error — never partial data. -/
lemma receiveAux_spec (chunks : List (List ℕ)) (acc : List ℕ) (size : ℕ)
    (hle : acc.length ≤ size) :
    (∃ d rest, receiveAux chunks acc size = .ok (d, rest) ∧ d.length = size)
    ∨ receiveAux chunks acc size = .error broken := by
  by_cases h : acc.length < size
  · rw [receiveAux.eq_def, dif_pos h]
    rcases chunks with _ | ⟨c, rest⟩
    · exact Or.inr rfl
    · dsimp only
      by_cases hc : (c.take (size - acc.length)).length = 0
      · rw [dif_pos hc]
        exact Or.inr rfl
      · rw [dif_neg hc]
        have hlen : (c.take (size - acc.length)).length ≤ size - acc.length := by
          simp [List.length_take]
        exact receiveAux_spec _ _ size (by simp only [List.length_append]; omega)
  · have heq : acc.length = size := le_antisymm hle (not_lt.mp h)
    rw [receiveAux.eq_def, dif_neg h]
    exact Or.inl ⟨acc, chunks, rfl, heq⟩
termination_by size - acc.length
decreasing_by
  have hc' : 0 < (List.take (size - acc.length) c).length := Nat.pos_of_ne_zero hc
  simp only [List.length_append]
  omega

/-- C3: `receive(size)` either returns exactly `size` bytes (looping over
partial chunks) or raises the broken-connection error — it never returns
partial data — and a transport that yields a zero-length chunk while
bytes are still missing raises that error. -/
theorem C3_receive_exact (chunks : List (List ℕ)) (size : ℕ) :
    ((∃ d rest, yasara_communicator.receive chunks size = .ok (d, rest)
        ∧ d.length = size)
      ∨ yasara_communicator.receive chunks size = .error broken)
    ∧ (0 < size →
        yasara_communicator.receive ([] :: chunks) size = .error broken) := by
  constructor
  · exact receiveAux_spec chunks [] size (by simp)
  · intro hs
    rw [yasara_communicator.receive, receiveAux.eq_def,
      dif_pos (by simpa using hs)]
    dsimp only
    rw [dif_pos (by simp)]

/-- Closed instance of `C3_receive_exact`: an immediate zero-length chunk
with one byte still missing raises the broken-connection error. -/
theorem C3_receive_exact_witness :
    yasara_communicator.receive [[]] 1 = .error broken :=
  (C3_receive_exact [] 1).2 (by decide)

/-- Reading `size` bytes when the first chunk already holds at least that
many: the requested prefix is returned and the remainder of the chunk
stays buffered for the next read. -/
lemma receive_whole (c : List ℕ) (rest : List (List ℕ)) (size : ℕ)
    (h0 : 0 < size) (hle : size ≤ c.length) :
    yasara_communicator.receive (c :: rest) size
      = .ok (c.take size,
             if (c.drop size).isEmpty then rest else c.drop size :: rest) := by
  rw [yasara_communicator.receive, receiveAux.eq_def,
    dif_pos (by simpa using h0)]
  dsimp only
  simp only [List.length_nil, Nat.sub_zero]
  rw [dif_neg (by simp only [List.length_take]; omega)]
  rw [receiveAux.eq_def,
    dif_neg (by simp only [List.nil_append, List.length_take]; omega)]
  simp

/-- Length of an encoded message: 8 header bytes plus the payload. -/
lemma encodeMessage_length (kind : ℤ) (payload : List ℕ) :
    (encodeMessage kind payload).length = 8 + payload.length := by
  simp [encodeMessage, int32ToBytes]
  omega

/-- Dropping the header of an encoded message leaves the payload. -/
lemma encodeMessage_drop (kind : ℤ) (payload : List ℕ) :
    (encodeMessage kind payload).drop 8 = payload := by
  simp [encodeMessage, int32ToBytes, List.drop_succ_cons]

/-- Receiving one framed ERROR message whose payload deserializes to a
`(code, text)` pair raises the formatted host error, whatever expected
type was requested. -/
lemma receivemessage_encode_error (payload : List ℕ) (code : ℤ) (txt : String)
    (unpickle : List ℕ → PyObj) (expectedtype : Option ℤ)
    (hlen : payload.length < 2147483648)
    (hup : unpickle payload = .pytuple [.pyint code, .pystr txt]) :
    yasara_communicator.receivemessage [encodeMessage ERROR payload]
        unpickle expectedtype
      = .error (.runtimeError
          ("YASARA raised error " ++ toString code ++ ": " ++ txt)) := by
  have h1 : yasara_communicator.receive [encodeMessage ERROR payload] 8
      = .ok ((encodeMessage ERROR payload).take 8,
             if ((encodeMessage ERROR payload).drop 8).isEmpty then []
             else [(encodeMessage ERROR payload).drop 8]) :=
    receive_whole _ _ 8 (by norm_num)
      (by rw [encodeMessage_length]; omega)
  have htake : unpack_ii ((encodeMessage ERROR payload).take 8)
      = (1, (payload.length : ℤ)) := by
    have hde := decode_encode ERROR payload
    rw [decode_header] at hde
    rw [hde, int32_roundtrip payload.length hlen]
    norm_num [ERROR, int32ToBytes, int32FromBytes]
  have h2 : yasara_communicator.receive
      (if payload.isEmpty then [] else [payload]) payload.length
      = .ok (payload, []) := by
    by_cases hp : payload.isEmpty
    · have hpe : payload = [] := by simpa using hp
      subst hpe
      simp only [List.isEmpty_nil, eq_self_iff_true, if_true, List.length_nil]
      rw [yasara_communicator.receive, receiveAux.eq_def, dif_neg (by simp)]
    · rw [if_neg hp]
      have hlenpos : 0 < payload.length := by
        cases payload
        · simp at hp
        · simp
      rw [receive_whole payload [] payload.length hlenpos (le_refl _)]
      simp
  rw [yasara_communicator.receivemessage, h1]
  dsimp only
  rw [htake]
  dsimp only
  rw [encodeMessage_drop, Int.toNat_natCast, h2]
  dsimp only
  rw [hup]
  simp [ERROR]

/-- C4: an incoming framed ERROR message whose payload deserializes to a
`(code, text)` pair makes `receivemessage` — and hence a result-bearing
`runretval` dispatch, with or without a pre-existing endpoint — raise an
error exposing both the code and the text, with no result value, no
matter which expected kind was requested. -/
theorem C4_error_surfacing (payload : List ℕ) (code : ℤ) (txt : String)
    (unpickle : List ℕ → PyObj) (expectedtype : Option ℤ)
    (com0 : yasara_communicator) (bound : Finset ℕ) (peer : ℕ) (cmd : String)
    (hlen : payload.length < 2147483648)
    (hup : unpickle payload = .pytuple [.pyint code, .pystr txt]) :
    (yasara_communicator.receivemessage [encodeMessage ERROR payload]
        unpickle expectedtype
      = .error (.runtimeError
          ("YASARA raised error " ++ toString code ++ ": " ++ txt)))
    ∧ (runretval (some com0) bound peer [encodeMessage ERROR payload]
        unpickle cmd true
      = .error (.runtimeError
          ("YASARA raised error " ++ toString code ++ ": " ++ txt)))
    ∧ (runretval none bound peer [encodeMessage ERROR payload]
        unpickle cmd true
      = .error (.runtimeError
          ("YASARA raised error " ++ toString code ++ ": " ++ txt))) := by
  have hmsg0 := receivemessage_encode_error payload code txt unpickle
    (some RESULT) hlen hup
  refine ⟨receivemessage_encode_error payload code txt unpickle expectedtype
    hlen hup, ?_, ?_⟩
  · simp [runretval, hmsg0]
  · simp [runretval, hmsg0, yasara_communicator.init, yasara_communicator.accept]

/-- Closed instance of `C4_error_surfacing`: the payload `(42, "bad
selection")` surfaces both values in the raised error. -/
theorem C4_error_surfacing_witness :
    yasara_communicator.receivemessage [encodeMessage ERROR []]
        (fun _ => PyObj.pytuple [PyObj.pyint 42, PyObj.pystr "bad selection"])
        none
      = .error (.runtimeError "YASARA raised error 42: bad selection")
    ∧ runretval (some ⟨5000, 1, some 3⟩) ∅ 3 [encodeMessage ERROR []]
        (fun _ => PyObj.pytuple [PyObj.pyint 42, PyObj.pystr "bad selection"])
        "DelAll" true
      = .error (.runtimeError "YASARA raised error 42: bad selection") :=
  ⟨(C4_error_surfacing [] 42 "bad selection" _ none ⟨5000, 1, some 3⟩ ∅ 3
      "DelAll" (by decide) rfl).1,
   (C4_error_surfacing [] 42 "bad selection" _ none ⟨5000, 1, some 3⟩ ∅ 3
      "DelAll" (by decide) rfl).2.1⟩

/-- Receiving one framed RESULT message while expecting RESULT returns
the deserialized payload. -/
lemma receivemessage_encode_result (payload : List ℕ)
    (unpickle : List ℕ → PyObj) (hlen : payload.length < 2147483648) :
    yasara_communicator.receivemessage [encodeMessage RESULT payload]
        unpickle (some RESULT)
      = .ok (.inr (unpickle payload)) := by
  have h1 : yasara_communicator.receive [encodeMessage RESULT payload] 8
      = .ok ((encodeMessage RESULT payload).take 8,
             if ((encodeMessage RESULT payload).drop 8).isEmpty then []
             else [(encodeMessage RESULT payload).drop 8]) :=
    receive_whole _ _ 8 (by norm_num)
      (by rw [encodeMessage_length]; omega)
  have htake : unpack_ii ((encodeMessage RESULT payload).take 8)
      = (0, (payload.length : ℤ)) := by
    have hde := decode_encode RESULT payload
    rw [decode_header] at hde
    rw [hde, int32_roundtrip payload.length hlen]
    norm_num [RESULT, int32ToBytes, int32FromBytes]
  have h2 : yasara_communicator.receive
      (if payload.isEmpty then [] else [payload]) payload.length
      = .ok (payload, []) := by
    by_cases hp : payload.isEmpty
    · have hpe : payload = [] := by simpa using hp
      subst hpe
      simp only [List.isEmpty_nil, eq_self_iff_true, if_true, List.length_nil]
      rw [yasara_communicator.receive, receiveAux.eq_def, dif_neg (by simp)]
    · rw [if_neg hp]
      have hlenpos : 0 < payload.length := by
        cases payload
        · simp at hp
        · simp
      rw [receive_whole payload [] payload.length hlenpos (le_refl _)]
      simp
  rw [yasara_communicator.receivemessage, h1]
  dsimp only
  rw [htake]
  dsimp only
  rw [encodeMessage_drop, Int.toNat_natCast, h2]
  dsimp only
  simp [ERROR, RESULT]

/-- C1: `runretval` coincides with the reference dispatcher definition on
every input; in particular a fire-and-forget command writes exactly the
`Exec:` line and returns `None` leaving the endpoint untouched, a
result-bearing command with an existing endpoint reuses it and writes
exactly the portless `ExecRV:` line, and a result-bearing command without
an endpoint creates one (bound to the first free port), writes the
`ExecRV<port>:` line, accepts the one host connection and returns the
received result — so the endpoint is created at most once and reused. -/
theorem C1_dispatch_reference (com : Option yasara_communicator)
    (bound : Finset ℕ) (peer : ℕ) (chunks : List (List ℕ))
    (unpickle : List ℕ → PyObj) (command : String) (retvalused : Bool) :
    (runretval com bound peer chunks unpickle command retvalused
      = dispatch_spec com bound peer chunks unpickle command retvalused)
    ∧ (retvalused = false →
        runretval com bound peer chunks unpickle command retvalused
          = .ok { retval := none, com := com,
                  writes := ["Exec: " ++ command ++ "\n"] })
    ∧ (∀ c v, com = some c →
        yasara_communicator.receivemessage chunks unpickle (some RESULT) = .ok v →
        runretval com bound peer chunks unpickle command true
          = .ok { retval := some v, com := some c,
                  writes := ["ExecRV: " ++ command ++ "\n"] })
    ∧ (∀ v, com = none →
        yasara_communicator.receivemessage chunks unpickle (some RESULT) = .ok v →
        runretval com bound peer chunks unpickle command true
          = .ok { retval := some v,
                  com := some { port := openPort bound IPPORT_USERRESERVED,
                                backlog := 1, sock := some peer },
                  writes := ["ExecRV"
                               ++ toString (openPort bound IPPORT_USERRESERVED)
                               ++ ": " ++ command ++ "\n"] }) := by
  refine ⟨?_, ?_, ?_, ?_⟩
  · cases retvalused <;> rcases com with _ | c <;>
      simp [runretval, dispatch_spec, yasara_communicator.init,
        yasara_communicator.accept]
  · rintro rfl
    simp [runretval]
  · rintro c v rfl hm
    simp [runretval, hm]
  · rintro v rfl hm
    simp [runretval, hm, yasara_communicator.init, yasara_communicator.accept]

/-- Closed instance of `C1_dispatch_reference`: a fire-and-forget command
writes its `Exec:` line and returns `None`, and a result-bearing command
on an existing endpoint writes the portless `ExecRV:` line and returns
the framed result. -/
theorem C1_dispatch_reference_witness :
    runretval none ∅ 3 [encodeMessage RESULT []] (fun _ => PyObj.pynone)
        "MakeWater" false
      = .ok { retval := none, com := none, writes := ["Exec: MakeWater\n"] }
    ∧ runretval (some ⟨5000, 1, some 3⟩) ∅ 3 [encodeMessage RESULT []]
        (fun _ => PyObj.pynone) "MakeWater" true
      = .ok { retval := some (.inr PyObj.pynone), com := some ⟨5000, 1, some 3⟩,
              writes := ["ExecRV: MakeWater\n"] } :=
  ⟨(C1_dispatch_reference none ∅ 3 [encodeMessage RESULT []]
      (fun _ => PyObj.pynone) "MakeWater" false).2.1 rfl,
   (C1_dispatch_reference (some ⟨5000, 1, some 3⟩) ∅ 3 [encodeMessage RESULT []]
      (fun _ => PyObj.pynone) "MakeWater" true).2.2.1 ⟨5000, 1, some 3⟩
      (.inr PyObj.pynone) rfl
      (receivemessage_encode_result [] (fun _ => PyObj.pynone) (by decide))⟩

end Yapycon
